import Mathlib

/-!
Verification development for the NL-to-SQL BI pipeline
(`app/pipeline/guardrails/sql_policy.py`, `app/core/cube_registry.py`,
`app/services/date_resolver.py`, `app/services/cache.py`,
`app/pipeline/orchestrator.py`, `app/pipeline/agents/visualization.py`).

The Python code is shallowly embedded: pure functions become Lean
functions, the in-memory cache becomes explicit state passing, machine
dates become explicit Gregorian-calendar arithmetic, and code that raises
exceptions returns `Except`/`Option`.  The sqlglot AST is embedded by the
exact set of observables `SQLGuard.validate_and_fix` reads from it
(statement kind, `args.get("limit"/"group"/"order"/"where")`, and the
node kinds collected by `walk()`).
-/

/-! ## String utilities

`str.lower()` and Python's `in` (substring) operator, modelled directly
on the character list of the string.  Only ASCII letters are relevant to
the SQL fragments handled by the guard. -/

/-- Model of Python `str.lower()` restricted to ASCII (all strings the
guard inspects are ASCII SQL text). -/
def pyLowerChar (c : Char) : Char :=
  if 'A' ≤ c ∧ c ≤ 'Z' then Char.ofNat (c.toNat + 32) else c

/-- Model of Python `str.lower()` on a whole string. -/
def pyLower (s : String) : String :=
  ⟨s.data.map pyLowerChar⟩

/-- Model of Python `str.upper()` restricted to ASCII. -/
def pyUpperChar (c : Char) : Char :=
  if 'a' ≤ c ∧ c ≤ 'z' then Char.ofNat (c.toNat - 32) else c

/-- Model of Python `str.upper()` on a whole string. -/
def pyUpper (s : String) : String :=
  ⟨s.data.map pyUpperChar⟩

/-- Does the character list `n` occur as a contiguous run inside `h`?
(Model of Python `n in h` for strings.) -/
def listHasRun (n : List Char) : List Char → Bool
  | [] => n.isEmpty
  | c :: t => n.isPrefixOf (c :: t) || listHasRun n t

/-- Model of Python's substring operator `needle in hay`. -/
def pyIn (needle hay : String) : Bool :=
  listHasRun needle.data hay.data

/-! ## Gregorian calendar

`datetime` arithmetic used by `DateResolver` (`datetime.now() -
timedelta(days=1)` and `strftime("%Y%m%d")`). -/

/-- Leap-year test of the proleptic Gregorian calendar. -/
def isLeapYear (y : Nat) : Bool :=
  (y % 4 == 0 && y % 100 != 0) || y % 400 == 0

/-- Number of days of month `m` (1-12) of year `y`. -/
def daysInMonth (y m : Nat) : Nat :=
  if m == 2 then (if isLeapYear y then 29 else 28)
  else if m == 4 || m == 6 || m == 9 || m == 11 then 30
  else 31

/-- Calendar date (year, month 1-12, day 1-31). -/
structure Date where
  year : Nat
  month : Nat
  day : Nat
deriving DecidableEq, Repr

/-- Model of `d - timedelta(days=1)`. -/
def prevDay (d : Date) : Date :=
  if d.day > 1 then ⟨d.year, d.month, d.day - 1⟩
  else if d.month > 1 then ⟨d.year, d.month - 1, daysInMonth d.year (d.month - 1)⟩
  else ⟨d.year - 1, 12, 31⟩

/-- Zero-padded two-digit decimal rendering (as in `strftime`). -/
def pad2 (n : Nat) : String :=
  if n < 10 then "0" ++ toString n else toString n

/-- Zero-padded four-digit decimal rendering (as in `strftime("%Y")`). -/
def pad4 (n : Nat) : String :=
  if n < 10 then "000" ++ toString n
  else if n < 100 then "00" ++ toString n
  else if n < 1000 then "0" ++ toString n
  else toString n

/-- Model of `strftime("%Y%m%d")`. -/
def fmtYYYYMMDD (d : Date) : String :=
  pad4 d.year ++ pad2 d.month ++ pad2 d.day

/-- Model of `strftime("%Y-%m-%d")`. -/
def fmtDashed (d : Date) : String :=
  pad4 d.year ++ "-" ++ pad2 d.month ++ "-" ++ pad2 d.day

/-! ## Cube registry (`app/core/cube_registry.py`)

`CubeRegistry.initialize` loads each cube module, extracts the physical
table name from its DDL, infers the table kind, and stores the metadata
keyed by table name.  We model the registry as an association list keyed
by table name; the DDL/doc/example text fields play no role in the
claims and are omitted. -/

namespace CubeRegistry

/-- Metadata fields of `CubeMetadata` that the guard and the registry
queries actually consume. -/
structure CubeMetadata where
  table_name : String
  kind : String
  time_column : Option String
deriving DecidableEq, Repr

/-- Truthiness of the Python condition

`table_name.endswith("_df") or "user_profile_360" or "blacklist" in table_name`

(`cube_registry.py` line 54).  Python `or` yields its first truthy
operand; the middle operand is the non-empty string literal
`"user_profile_360"`, and a non-empty string is truthy, so the whole
condition is evaluated exactly as below. -/
def kindCondition (table_name : String) : Bool :=
  table_name.endsWith "_df" || !(("user_profile_360" : String).isEmpty)
    || pyIn "blacklist" table_name

/-- Kind inference of `CubeRegistry.initialize` (lines 51-57):
start from `"di"`, switch to `"df"` when `kindCondition` holds,
otherwise keep `"di"` when the name ends with `"_di"`. -/
def inferKind (table_name : String) : String :=
  if kindCondition table_name then "df"
  else if table_name.endsWith "_di" then "di"
  else "di"

/-- Registry construction of `CubeRegistry.initialize`, parametrised by
the table names extracted from the cube modules' DDL (the regex
extraction from external DDL text, and the unused text fields, are
outside the model).  Each table is registered with the inferred kind. -/
def initRegistry (tables : List (String × Option String)) :
    List (String × CubeMetadata) :=
  tables.map fun t =>
    (t.1, { table_name := t.1, kind := inferKind t.1, time_column := t.2 })

/-- Model of `CubeRegistry.get_cube`. -/
def get_cube (reg : List (String × CubeMetadata)) (table_name : String) :
    Option CubeMetadata :=
  (reg.find? (fun p => p.1 == table_name)).map (·.2)

/-- Model of `CubeRegistry.is_snapshot`:
`cube.kind == "df" if cube else False`. -/
def is_snapshot (reg : List (String × CubeMetadata)) (table_name : String) : Bool :=
  match get_cube reg table_name with
  | some cube => cube.kind == "df"
  | none => false

/-- Physical table names of the cube modules present under
`app/cubes/` (from each module's `CREATE TABLE public.<name>` DDL),
with their `TIME_COLUMN` attribute when declared. -/
def knownCubeTables : List (String × Option String) :=
  [ ("user_profile_360", none),
    ("dws_user_deposit_withdraw_detail_di", none),
    ("dws_all_trades_di", some "trade_datetime"),
    ("dwd_activity_t_points_user_task_di", some "created_at"),
    ("dwd_login_history_log_di", some "create_at"),
    ("dwd_user_device_log_di", some "start_date"),
    ("risk_campaign_blacklist", some "start_date") ]

/-- The registry as built at import time from the cube modules present
in the source tree. -/
def theRegistry : List (String × CubeMetadata) :=
  initRegistry knownCubeTables

end CubeRegistry

/-! ## SQL policy guard (`app/pipeline/guardrails/sql_policy.py`)

`validate_and_fix` parses the candidate SQL with `sqlglot.parse_one`
and then only reads a fixed set of observables from the resulting tree.
A parsed statement is embedded as exactly those observables.  A raw SQL
string is embedded as the list of parsed statements it denotes:
`sqlglot.parse_one` parses the whole text but returns only the *first*
statement of the list, silently discarding the rest, which the model of
`validate_and_fix` reproduces below. -/

namespace SQLGuard

/-- Top-level expression kinds distinguished by
`isinstance(parsed, (exp.Select, exp.Union, exp.With))` and by the DDL /
DML node classes of sqlglot. -/
inductive ExprKind
  | select | union | withCte
  | drop | delete | insert | update | create | command | other
deriving DecidableEq, Repr

/-- Observables of one parsed sqlglot statement that
`validate_and_fix` reads:

* `kind` — the class of the root node;
* `limitArg` — `parsed.args.get("limit")`, the LIMIT value when present;
* `groupArg` — whether `parsed.args.get("group")` is not `None`;
* `orderDescFlags` — for each expression of `parsed.args.get("order")`,
  the truthiness of its `desc` argument (`[]` when there is no order
  clause — a present order clause always carries at least one
  expression);
* `whereSql` — `parsed.args.get("where").sql()` when a where-clause is
  present;
* `walkHasCommand` — whether `parsed.walk()` visits an `exp.Command`;
* `walkTables` — the names of the `exp.Table` nodes visited by
  `parsed.walk()`;
* `walkHasAggFunc` — whether `parsed.walk()` visits an `exp.AggFunc`;
* `walkHasGroupNode` — whether `parsed.walk()` visits an `exp.Group`. -/
structure ParsedStmt where
  kind : ExprKind
  limitArg : Option Nat
  groupArg : Bool
  orderDescFlags : List Bool
  whereSql : Option String
  walkHasCommand : Bool
  walkTables : List String
  walkHasAggFunc : Bool
  walkHasGroupNode : Bool
deriving DecidableEq, Repr

/-- Structural fact of every real sqlglot parse result: when the
root's `group` argument is set, the group-by clause is itself an
`exp.Group` node visited by `walk()`. -/
def ParsedStmt.wf (s : ParsedStmt) : Prop :=
  s.groupArg = true → s.walkHasGroupNode = true

instance (s : ParsedStmt) : Decidable s.wf := by
  unfold ParsedStmt.wf; infer_instance

/-- Reasons of the `SQLPolicyException`s raised by
`validate_and_fix` (the human-readable message text is not modelled;
each constructor names the `raise` site). -/
inductive PolicyError
  /-- `Invalid SQL syntax` (parse failure). -/
  | invalidSyntax
  /-- `Security Alert: Only SELECT statements are allowed.` -/
  | notSelect
  /-- `Security Alert: System commands are forbidden.` -/
  | systemCommand
  /-- `CRITICAL ERROR: <tbl> is a SNAPSHOT table. You CANNOT use 'ds BETWEEN' ...` -/
  | snapshotBetween (tbl : String)
  /-- `CRITICAL ERROR: <tbl> is an INCREMENTAL table. You MUST include a 'ds' filter ...` -/
  | incrementalNoDs (tbl : String)
deriving DecidableEq, Repr

open CubeRegistry in
/-- Body of the `for tbl in tables_found` loop of RULE 3 for a single
table: `None` when the table passes, `some` error when it raises. -/
def tableViolation (reg : List (String × CubeMetadata)) (where_sql : String)
    (tbl : String) : Option PolicyError :=
  match get_cube reg tbl with
  | none => none
  | some cube =>
    if cube.kind == "df" then
      if pyIn "between" where_sql && pyIn "ds " where_sql then
        some (.snapshotBetween tbl)
      else none
    else if cube.kind == "di" then
      if !pyIn "ds" where_sql then some (.incrementalNoDs tbl)
      else none
    else none

open CubeRegistry in
/-- RULE 3 (`STRICT PARTITION ENFORCEMENT`): iterate over the referenced
tables and raise at the first violation. -/
def ruleThree (reg : List (String × CubeMetadata)) (where_sql : String) :
    List String → Option PolicyError
  | [] => none
  | tbl :: rest =>
    match tableViolation reg where_sql tbl with
    | some e => some e
    | none => ruleThree reg where_sql rest

/-- RULE 2 (`SMART LIMIT ENFORCER`), lines 86-95: strip the limit of a
grouped query that is not sorted descending; inject `LIMIT 100` into a
raw (no aggregation) query without a limit.  The rule reads
`has_group_by`, `has_limit`, `has_desc_order` and `has_aggregation` and
changes only the limit argument; `limitAfterPolicy` is that new limit
argument. -/
def limitAfterPolicy (parsed : ParsedStmt) : Option Nat :=
  let has_aggregation := parsed.walkHasAggFunc || parsed.walkHasGroupNode
  let has_limit := parsed.limitArg.isSome
  let has_desc_order := parsed.orderDescFlags.any id
  if parsed.groupArg && has_limit then
    -- grouped with DESC order: "Top 10" query, keep the limit;
    -- grouped otherwise: "Trend" query, strip the limit
    if !has_desc_order then none else parsed.limitArg
  else if !has_aggregation && !has_limit then
    -- raw list of data without a limit: inject safe limit
    some 100
  else parsed.limitArg

/-- RULE 2 applied to the statement (the Python code mutates only
`parsed.args["limit"]`). -/
def applyLimitPolicy (parsed : ParsedStmt) : ParsedStmt :=
  { parsed with limitArg := limitAfterPolicy parsed }

open CubeRegistry in
/-- Model of `SQLGuard.validate_and_fix` (lines 49-123), parametrised by
the registry consulted through `CubeRegistry.get_cube`.

The input is the statement list denoted by the (pre-processed) SQL text;
`sqlglot.parse_one` returns the first statement and discards the rest,
and fails on text containing no statement.  The preprocessing regexes of
`_preprocess_sql` rewrite interval literals and clock calls inside the
text before parsing; they do not add or remove statements and are
absorbed into the statement list.  The returned statement stands for the
canonical rendering `parsed.sql()` of the final tree. -/
def validate_and_fix (reg : List (String × CubeMetadata))
    (stmts : List ParsedStmt) : Except PolicyError ParsedStmt :=
  match stmts with
  | [] => .error .invalidSyntax
  | parsed :: _ =>
    -- RULE 1: READ ONLY
    if !(parsed.kind == .select || parsed.kind == .union || parsed.kind == .withCte) then
      .error .notSelect
    else if parsed.walkHasCommand then
      .error .systemCommand
    else
      -- RULE 2: SMART LIMIT ENFORCER
      let fixed := applyLimitPolicy parsed
      -- RULE 3: STRICT PARTITION ENFORCEMENT (df vs di)
      let where_sql := (fixed.whereSql.map pyLower).getD ""
      match ruleThree reg where_sql fixed.walkTables with
      | some e => .error e
      | none => .ok fixed


/-! ### Concrete inputs used by the claim witnesses and counterexamples -/

/-- Observables of the sqlglot parse of `SELECT 1`: a `Select` root
with no limit, group, order or where argument, and a walk visiting no
`Command`, `Table` or `AggFunc`/`Group` node. -/
def selectOneStmt : ParsedStmt :=
  { kind := .select, limitArg := none, groupArg := false,
    orderDescFlags := [], whereSql := none, walkHasCommand := false,
    walkTables := [], walkHasAggFunc := false, walkHasGroupNode := false }

/-- Observables of the sqlglot parse of `DROP TABLE users`: an
`exp.Drop` root (not a `Command` node — sqlglot parses DROP into its
own class), whose walk visits the table `users`. -/
def dropTableUsersStmt : ParsedStmt :=
  { kind := .drop, limitArg := none, groupArg := false,
    orderDescFlags := [], whereSql := none, walkHasCommand := false,
    walkTables := ["users"], walkHasAggFunc := false, walkHasGroupNode := false }

/-- Concrete registry entry used by the C2/C3/C4/C5 witnesses: a table
classified snapshot. -/
def snapRegistry : List (String × CubeRegistry.CubeMetadata) :=
  [("snap_table", { table_name := "snap_table", kind := "df", time_column := some "created_at" })]

/-- Concrete SELECT over `snap_table` with the range where-clause. -/
def c2BetweenStmt : ParsedStmt :=
  { kind := .select, limitArg := none, groupArg := false,
    orderDescFlags := [], whereSql := some "WHERE ds BETWEEN 'a' AND 'b'",
    walkHasCommand := false, walkTables := ["snap_table"],
    walkHasAggFunc := false, walkHasGroupNode := false }

/-- Concrete SELECT over `snap_table` with the single-value
where-clause. -/
def c2EqStmt : ParsedStmt :=
  { kind := .select, limitArg := none, groupArg := false,
    orderDescFlags := [], whereSql := some "WHERE ds = 'a'",
    walkHasCommand := false, walkTables := ["snap_table"],
    walkHasAggFunc := false, walkHasGroupNode := false }

/-- Concrete registry entry: a table classified incremental. -/
def incrRegistry : List (String × CubeRegistry.CubeMetadata) :=
  [("events_di", { table_name := "events_di", kind := "di", time_column := some "created_at" })]

/-- Concrete SELECT over `events_di` whose where-clause `funds > 0`
makes no reference to the partition column `ds`. -/
def c3FundsStmt : ParsedStmt :=
  { kind := .select, limitArg := none, groupArg := false,
    orderDescFlags := [], whereSql := some "WHERE funds > 0",
    walkHasCommand := false, walkTables := ["events_di"],
    walkHasAggFunc := false, walkHasGroupNode := false }

/-- Concrete SELECT over `events_di` with no where-clause at all. -/
def c3NoWhereStmt : ParsedStmt :=
  { kind := .select, limitArg := none, groupArg := false,
    orderDescFlags := [], whereSql := none,
    walkHasCommand := false, walkTables := ["events_di"],
    walkHasAggFunc := false, walkHasGroupNode := false }

/-- Concrete SELECT over `events_di` with the range predicate added. -/
def c3BetweenStmt : ParsedStmt :=
  { kind := .select, limitArg := none, groupArg := false,
    orderDescFlags := [], whereSql := some "WHERE ds BETWEEN 'a' AND 'b'",
    walkHasCommand := false, walkTables := ["events_di"],
    walkHasAggFunc := false, walkHasGroupNode := false }

/-- Concrete grouped descending top-N query
(`... GROUP BY user_code ORDER BY SUM(x) DESC LIMIT 10`). -/
def c4TopNStmt : ParsedStmt :=
  { kind := .select, limitArg := some 10, groupArg := true,
    orderDescFlags := [true], whereSql := none,
    walkHasCommand := false, walkTables := ["t"],
    walkHasAggFunc := true, walkHasGroupNode := true }

/-- Concrete grouped ascending query whose limit the first pass
strips. -/
def c5TrendStmt : ParsedStmt :=
  { kind := .select, limitArg := some 10, groupArg := true,
    orderDescFlags := [false], whereSql := none,
    walkHasCommand := false, walkTables := ["t"],
    walkHasAggFunc := true, walkHasGroupNode := true }
end SQLGuard

/-! ## In-memory cache (`app/services/cache.py`)

The singleton `InMemoryCache` stores `(value, expiry)` pairs keyed by
string; `set` computes `expiry = time.time() + ttl_seconds`; `get`
returns `None` for a missing key, lazily deletes and returns `None`
when `time.time() > expiry`, and otherwise returns the value.  The
store is modelled as an association list threaded explicitly, and the
wall clock `time.time()` as a natural-number parameter. -/

namespace InMemoryCache

/-- Cache store: key to (value, expiry). Values relevant to the claims
are the partition strings. -/
def Store := List (String × (String × Nat))

/-- Model of `InMemoryCache.set(key, value, ttl_seconds)` at wall-clock
time `now`. -/
def set (store : Store) (key value : String) (ttl_seconds now : Nat) : Store :=
  (key, (value, now + ttl_seconds)) :: (store.filter fun p => p.1 != key)

/-- Model of `InMemoryCache.get(key)` at wall-clock time `now`:
returns the unexpired value and the (possibly lazily-deleted) store. -/
def get (store : Store) (key : String) (now : Nat) : Option String × Store :=
  match store.find? (fun p => p.1 == key) with
  | none => (none, store)
  | some (_, (value, expiry)) =>
    if now > expiry then (none, store.filter fun p => p.1 != key)
    else (some value, store)

end InMemoryCache

/-! ## Date resolver (`app/services/date_resolver.py`)

`DateResolver.get_latest_ds` checks the cache under the key
`"latest_ds"`, probes the warehouse on a miss, caches a successful
probe for one hour, and falls back to yesterday's real-clock date
without caching when the probe fails.  The warehouse probe
`_fetch_ds_from_db` (returns `str(row[0])` on a row, `None` on an
exception or an empty anchor table) is modelled by an
`Option String` argument, and the real clock by an explicit `Date`
plus a wall-clock second count. -/

namespace DateResolver

/-- Which strategy produced the result of one `get_latest_ds` call:
the memory cache, the warehouse probe, or the yesterday fallback. -/
inductive Path
  | cacheHit | probeSuccess | fallback
deriving DecidableEq, Repr

/-- Model of `DateResolver.get_latest_ds`.

* `store` — current cache store, `now` — `time.time()`,
  `clock` — the calendar date of `datetime.now()`,
  `probe` — result of `_fetch_ds_from_db` (`none` on DB error or empty
  table).
* Returns the partition string, the cache store after the call, and the
  path taken. Python truthiness (`if cached_ds:` / `if new_ds:`) treats
  an empty string as a miss, which the model reproduces. -/
def get_latest_ds (store : InMemoryCache.Store) (now : Nat) (clock : Date)
    (probe : Option String) : String × InMemoryCache.Store × Path :=
  -- 1. Check Cache
  match InMemoryCache.get store "latest_ds" now with
  | (some cached_ds, store') =>
    if !cached_ds.isEmpty then (cached_ds, store', .cacheHit)
    else fallthrough store' now clock probe
  | (none, store') => fallthrough store' now clock probe
where
  /-- Steps 2 (DB probe) and 3 (yesterday fallback) of
  `get_latest_ds`. -/
  fallthrough (store' : InMemoryCache.Store) (now : Nat) (clock : Date)
      (probe : Option String) : String × InMemoryCache.Store × Path :=
    match probe with
    | some new_ds =>
      if !new_ds.isEmpty then
        -- Cache for 1 hour
        (new_ds, InMemoryCache.set store' "latest_ds" new_ds 3600 now, .probeSuccess)
      else (fmtYYYYMMDD (prevDay clock), store', .fallback)
    | none => (fmtYYYYMMDD (prevDay clock), store', .fallback)

end DateResolver

/-! ## Orchestrator reasoning loop (`app/pipeline/orchestrator.py` lines 102-208)

The self-correction loop `while attempts <= max_retries` performs one
generation attempt per iteration.  Inside the `try` block an attempt
either

* produces cleaned output that does not start with `SELECT`/`WITH`
  (returned directly as a `text` response),
* raises `SQLPolicyException` in the safety gate (returned immediately
  as an `error` response, never retried),
* raises any other exception during generation, the
  `intermediate_sql` check, or execution (`attempts += 1` and retry
  while `attempts <= max_retries`), or
* executes successfully (returned as a `success` response).

The loop is modelled with the per-iteration outcome abstracted as a
function of the `attempts` counter (the prompt rebuilt between
iterations only influences the next outcome), and with an explicit
iteration budget `fuel = max_retries - attempts + 1`, which is exactly
the number of iterations the `while` condition still allows. -/

namespace Orchestrator

/-- Outcome of the body of one loop iteration. -/
inductive AttemptOutcome
  /-- The cleaned generation output does not match `^\s*(SELECT|WITH)`:
  returned directly as a text response. -/
  | textResponse (msg : String)
  /-- `SQLGuard.validate_and_fix` raised `SQLPolicyException pe`. -/
  | policyViolation (pe : SQLGuard.PolicyError)
  /-- Generation, the `intermediate_sql` check, or `vn.run_sql_async`
  raised a retriable exception with message `msg`. -/
  | runtimeFail (msg : String)
  /-- The guard passed and execution succeeded. -/
  | execSuccess (sql : String)
deriving DecidableEq, Repr

/-- Discriminated response payload of `run_pipeline`
(`{"type": status_type, ...}`). -/
inductive PipelineResponse
  | text (message : String)
  /-- `Security Block: <pe>` for a guard violation, or the terminal
  `I tried to run the query, but it kept failing: <last_error>`. -/
  | error (securityBlock : Option SQLGuard.PolicyError) (lastError : Option String)
  | success (sql : String)
deriving DecidableEq, Repr

/-- `max_retries = 2` (orchestrator line 103). -/
def max_retries : Nat := 2

/-- One execution of the reasoning loop from a state where `fuel`
iterations are still allowed by `while attempts <= max_retries`
(i.e. `fuel = max_retries - attempts + 1`, and `fuel = 0` when the
condition already fails).  `outcome n` is the body outcome of the
iteration entered with `attempts = n`; `gens` counts the generation
attempts performed so far.  Returns the response and the total number of
generation attempts. -/
def loopIter (outcome : Nat → AttemptOutcome) :
    (fuel attempts gens : Nat) → (last_error : Option String) →
    PipelineResponse × Nat
  | 0, _, gens, last_error =>
    -- Failure after retries
    (.error none last_error, gens)
  | fuel + 1, attempts, gens, _ =>
    match outcome attempts with
    | .textResponse m => (.text m, gens + 1)
    | .policyViolation pe => (.error (some pe) none, gens + 1)
    | .execSuccess sql => (.success sql, gens + 1)
    | .runtimeFail m =>
      -- attempts += 1; rebuild the prompt and loop while the
      -- `while` condition still holds, otherwise break
      loopIter outcome fuel (attempts + 1) (gens + 1) (some m)

/-- The reasoning loop of `run_pipeline` entered with `attempts = 0`,
no recorded error, and the `while attempts <= max_retries` condition
allowing `max_retries + 1` iterations. -/
def reasoningLoop (outcome : Nat → AttemptOutcome) : PipelineResponse × Nat :=
  loopIter outcome (max_retries + 1) 0 0 none

end Orchestrator

/-! ## Visualization agent (`app/pipeline/agents/visualization.py`)

`determine_format` receives the executed result as a pandas DataFrame.
The claims concern the two-column shape, so the frame is embedded as a
pair of named columns over a common row list; a cell is a null, a
number, a datetime, or a string.  Numbers are embedded as integers (the
numeric coercions relevant to the claims are exact); a datetime value
is embedded as its `YYYYMMDD` ordinal, whose numeric order coincides
with chronological order.  The generation-port calls
(`vn.generate_plotly_code_async` plus `_execute_plotly_code`) are
external collaborators: the model records that a call was made and
leaves its chart opaque. -/

namespace VisualizationAgent

/-- One DataFrame cell. -/
inductive Cell
  | null
  | num (v : Int)
  | date (ymd : Nat)
  | str (s : String)
deriving DecidableEq, Repr

/-- A two-column DataFrame: column names and rows of (first-column,
second-column) cells. -/
structure DFrame2 where
  col1 : String
  col2 : String
  rows : List (Cell × Cell)
deriving DecidableEq, Repr

/-- The `date_like` name set of `_clean_data_for_plotting` and
`_force_xy_for_two_columns`. -/
def dateLikeNames : List String :=
  ["ds", "date", "day", "time", "created_at", "trade_datetime",
   "registration_date", "hour", "trade_date"]

/-- Digit test used by the `%Y%m%d` parser. -/
def allDigits (l : List Char) : Bool :=
  l.all fun c => '0' ≤ c && c ≤ '9'

/-- Numeric value of a digit list (most significant first). -/
def digitsToNat (l : List Char) : Nat :=
  l.foldl (fun acc c => acc * 10 + (c.toNat - '0'.toNat)) 0

/-- Model of `pd.to_datetime(s, format='%Y%m%d', errors='coerce')` on a
single string: exactly eight digits denoting a valid calendar date.
The result is the `YYYYMMDD` ordinal. -/
def parseYmd (s : String) : Option Nat :=
  if s.length == 8 && allDigits s.data then
    let n := digitsToNat s.data
    let m := n / 100 % 100
    let d := n % 100
    if 1 ≤ m && m ≤ 12 && 1 ≤ d && d ≤ daysInMonth (n / 10000) m then some n
    else none
  else none

/-- Strict `%Y%m%d` coercion of one cell
(`pd.to_datetime(df[col].astype(str), format='%Y%m%d',
errors='coerce')`): string cells and integer cells are stringified and
parsed; a failure coerces to `NaT` (null).  A cell that is already a
datetime stringifies with time-of-day and fails the strict format; the
all-`NaT` fallback below re-parses such a column generically. -/
def strictYmdCell : Cell → Cell
  | .str s => match parseYmd s with
              | some n => .date n
              | none => .null
  | .num v => if v ≥ 0 then
                match parseYmd (toString v.toNat) with
                | some n => .date n
                | none => .null
              else .null
  | .date _ => .null
  | .null => .null

/-- Generic `pd.to_datetime(df[col], errors='coerce')` fallback applied
when the strict pass produced only `NaT`: existing datetimes survive,
everything else the claims exercise coerces to `NaT`. -/
def genericDatetimeCell : Cell → Cell
  | .date n => .date n
  | _ => .null

/-- Model of
`df[col].astype(str).str.replace(',', '').strip()` followed by
`pd.to_numeric(errors='coerce')` on one cell (integer-valued data). -/
def toNumericCell : Cell → Cell
  | .num v => .num v
  | .str s =>
    let cleaned := (s.data.filter (· ≠ ',')).filter (· ≠ ' ')
    if cleaned ≠ [] && allDigits cleaned then .num (digitsToNat cleaned)
    else .null
  | .date _ => .null
  | .null => .null

/-- Is the cell a non-null datetime? -/
def Cell.isDate : Cell → Bool
  | .date _ => true
  | _ => false

/-- Is the cell a non-null number? -/
def Cell.isNum : Cell → Bool
  | .num _ => true
  | _ => false

/-- Column dtype test `pd.api.types.is_datetime64_any_dtype`, at the
value level: the column holds datetimes (and possibly `NaT`) and is not
all-null. -/
def colIsDatetime (vals : List Cell) : Bool :=
  vals.any Cell.isDate && vals.all fun c => Cell.isDate c || c == .null

/-- Column dtype test `pd.api.types.is_numeric_dtype`, at the value
level. -/
def colIsNumeric (vals : List Cell) : Bool :=
  vals.any Cell.isNum && vals.all fun c => Cell.isNum c || c == .null

/-- Name-based date test of `_clean_data_for_plotting`:
`col_lower in date_like_names or 'date' in col_lower`. -/
def cleanNameIsDate (col : String) : Bool :=
  dateLikeNames.contains (pyLower col) || pyIn "date" (pyLower col)

/-- Column transformation of `_clean_data_for_plotting` for one named
column. -/
def cleanCol (col : String) (vals : List Cell) : List Cell :=
  if cleanNameIsDate col then
    let strict := vals.map strictYmdCell
    if strict.all (· == .null) then vals.map genericDatetimeCell else strict
  else
    let nums := vals.map toNumericCell
    -- num.notna().mean() >= 0.60  (the mean of an empty column is NaN,
    -- and a NaN comparison is false)
    if vals.length ≠ 0 &&
        5 * (nums.filter (· != Cell.null)).length ≥ 3 * vals.length then
      nums
    else vals

/-- Model of `_clean_data_for_plotting` on a two-column frame. -/
def cleanData (df : DFrame2) : DFrame2 :=
  let c1 := cleanCol df.col1 (df.rows.map (·.1))
  let c2 := cleanCol df.col2 (df.rows.map (·.2))
  { df with rows := c1.zip c2 }

/-- First non-null value of a column
(`df[c].dropna().iloc[0]`, `none` when empty). -/
def firstNonNull (vals : List Cell) : Option Cell :=
  (vals.filter (· != Cell.null)).head?

/-- Candidate test of `_force_xy_for_two_columns` for one column:
name in the `date_like` set, or datetime dtype, or the first non-null
value is a date/datetime instance. -/
def isXCandidate (col : String) (vals : List Cell) : Bool :=
  dateLikeNames.contains (pyLower col) || colIsDatetime vals ||
    (match firstNonNull vals with
     | some c => Cell.isDate c
     | none => false)

/-- Model of `_force_xy_for_two_columns`: `none` when no column
qualifies as x; otherwise `some true` when the first column is x
(and the second is y), `some false` for the reverse.  The y column is
chosen by name comparison `cols[1] if cols[0] == x_col else cols[0]`,
which on a two-column frame with distinct names is the other column. -/
def forceXY (df : DFrame2) : Option Bool :=
  let xs1 := isXCandidate df.col1 (df.rows.map (·.1))
  let xs2 := isXCandidate df.col2 (df.rows.map (·.2))
  if xs1 then some true
  else if xs2 then some (df.col1 == df.col2)
  else none

/-- Sort-key order used by `df.sort_values(by=x)` on a column:
ascending values with nulls (`NaT`/`NaN`) last; within one dtype the
underlying order, across the heterogeneous cases (which pandas would
refuse) an arbitrary fixed rank. -/
def cellRank : Cell → Nat
  | .date _ => 0
  | .num _ => 1
  | .str _ => 2
  | .null => 3

/-- Boolean comparison of cells realising `cellRank` order. -/
def cellLe (a b : Cell) : Bool :=
  match a, b with
  | .date x, .date y => decide (x ≤ y)
  | .num x, .num y => decide (x ≤ y)
  | .str x, .str y => decide (x ≤ y)
  | _, _ => decide (cellRank a ≤ cellRank b)

/-- Insertion of one row into a row list sorted by the first component
(`df.sort_values(by=forced_x)` when x is the first column). -/
def insertRowByX (r : Cell × Cell) : List (Cell × Cell) → List (Cell × Cell)
  | [] => [r]
  | s :: t => if cellLe r.1 s.1 then r :: s :: t else s :: insertRowByX r t

/-- Ascending sort of the rows by the first component. -/
def sortRowsByX : List (Cell × Cell) → List (Cell × Cell)
  | [] => []
  | r :: t => insertRowByX r (sortRowsByX t)

/-- Model of `strftime('%Y-%m-%d')` on a datetime cell's `YYYYMMDD`
ordinal. -/
def fmtCellDash (n : Nat) : String :=
  fmtDashed ⟨n / 10000, n / 100 % 100, n % 100⟩

/-- Chart-type choice `_choose_chart`: by row density when x is a
datetime column, otherwise bar. -/
def chooseChart (xIsDatetime : Bool) (rowCount : Nat) : String :=
  if xIsDatetime then
    if rowCount ≤ 15 then "bar" else if rowCount ≤ 100 then "line" else "area"
  else "bar"

/-- The deterministic chart trace built by GUARDRAIL C: trace type,
x series (dash-formatted strings for a datetime x, raw cells
otherwise), y series (numeric cells with explicit nulls), and the
chosen chart kind. -/
structure ChartTrace where
  traceType : String
  x : List Cell
  y : List Cell
  chartKind : String
deriving DecidableEq, Repr

/-- Result of `determine_format`: the discriminated visual type, the
deterministic trace when one was built (the generation-port branches
return an opaque chart), and whether the generation port was called. -/
structure VizResult where
  visual_type : String
  trace : Option ChartTrace
  llmCalled : Bool
deriving DecidableEq, Repr

/-- Aggregation heuristic of step 3:
`any(x in sql.upper() for x in ["GROUP BY","SUM(","COUNT(","AVG(","MIN(","MAX("])`. -/
def hasAggregates (sql : String) : Bool :=
  ["GROUP BY", "SUM(", "COUNT(", "AVG(", "MIN(", "MAX("].any
    fun x => pyIn x (pyUpper sql)

/-- The deterministic plotting block of GUARDRAIL C on cleaned rows
with x the first column: sort by x, coerce y numerically, extract the
series, and build the trace without a generation-port call. -/
def deterministicTrace (rows : List (Cell × Cell)) : ChartTrace :=
  let sorted := sortRowsByX rows
  let sorted := sorted.map fun r => (r.1, toNumericCell r.2)
  let xIsDt := colIsDatetime (sorted.map (·.1))
  let x_data := if xIsDt then
      sorted.map fun r => match r.1 with
        | .date n => Cell.str (fmtCellDash n)
        | c => c
    else sorted.map (·.1)
  let y_data := sorted.map (·.2)
  let chart := chooseChart xIsDt sorted.length
  { traceType := if chart == "bar" then "bar" else "scatter",
    x := x_data, y := y_data, chartKind := chart }

/-- Swap the columns of a two-column frame (used to reuse the
deterministic block when the forced x is the second column). -/
def swapCols (df : DFrame2) : DFrame2 :=
  { col1 := df.col2, col2 := df.col1, rows := df.rows.map fun r => (r.2, r.1) }

/-- Model of `VisualizationAgent.determine_format` on a two-column
frame (lines 78-196; the claims' scope).  Returns the decision and
records every generation-port call in `llmCalled`. -/
def determine_format (df : DFrame2) (sql : String) (user_question : String)
    (intent_type : String) : VizResult :=
  if df.rows.isEmpty then
    { visual_type := "none", trace := none, llmCalled := false }
  else
    -- GUARDRAIL A: Auto-Clean Data
    let df := cleanData df
    let row_count := df.rows.length
    -- GUARDRAIL B: Detect Axis for Simple Logic
    let forced := forceXY df
    -- 1. KPI
    let numericCols :=
      (if colIsNumeric (df.rows.map (·.1)) then 1 else 0) +
      (if colIsNumeric (df.rows.map (·.2)) then 1 else 0)
    if row_count == 1 && numericCols == 1 then
      { visual_type := "table", trace := none, llmCalled := false }
    -- 2. Funnel Intent
    else if intent_type == "funnel" || pyIn "funnel" (pyLower user_question) then
      { visual_type := "plotly", trace := none, llmCalled := true }
    -- 3. Trend / Analytics
    else if (intent_type == "trend" || hasAggregates sql) && row_count > 1 then
      match forced with
      | some xIsFirst =>
        -- GUARDRAIL C: DETERMINISTIC PLOTTING (NO LLM)
        let base := if xIsFirst then df else swapCols df
        { visual_type := "plotly",
          trace := some (deterministicTrace base.rows), llmCalled := false }
      | none =>
        -- FALLBACK: LLM GENERATION (the final payload depends on the
        -- external call's result and is left opaque here; the call
        -- itself is what `llmCalled` records)
        { visual_type := "plotly", trace := none, llmCalled := true }
    -- D. Fallback
    else
      { visual_type := "table", trace := none, llmCalled := false }


/-! ### Sort order and concrete input of the chart claims -/

/-- Ordinal of a datetime cell (0 for non-dates; used only on date
cells). -/
def dateVal : Cell → Nat
  | .date n => n
  | _ => 0

/-- Row comparison used by the sort: by the first (x) component. -/
def RowLe (a b : Cell × Cell) : Prop := cellLe a.1 b.1 = true

/-- Concrete two-column trend result: a `ds` date column and a numeric
volume column, in unsorted order. -/
def c9Frame : DFrame2 :=
  { col1 := "ds", col2 := "total_volume",
    rows := [(Cell.str "20260210", Cell.num 5), (Cell.str "20260209", Cell.num 7)] }
end VisualizationAgent

/-! ## Theorems

One theorem per claim of the specification review, preceded by shared
helper lemmas. -/

/-! ### C10 — every registered cube is classified as a snapshot -/

namespace CubeRegistry

/-- The classification condition of `initialize` is truthy for every
table name: its middle `or`-operand is the non-empty string literal
`"user_profile_360"`. -/
theorem kindCondition_true (table_name : String) :
    kindCondition table_name = true := by
  have h : (("user_profile_360" : String).isEmpty) = false := by decide
  simp [kindCondition, h]

/-- Helper: every metadata entry produced by `initRegistry` carries
kind `"df"`. -/
theorem get_cube_initRegistry_kind (tables : List (String × Option String))
    (t : String) (cube : CubeMetadata)
    (h : get_cube (initRegistry tables) t = some cube) : cube.kind = inferKind t := by
  induction tables with
  | nil => simp [initRegistry, get_cube] at h
  | cons hd tl ih =>
    by_cases hhd : hd.1 == t
    · have heq : hd.1 = t := by simpa using hhd
      simp only [initRegistry, List.map_cons, get_cube, List.find?, hhd,
        Option.map_some', Option.some.injEq] at h
      subst h
      simp [heq]
    · simp only [initRegistry, List.map_cons, get_cube, List.find?, hhd] at h
      exact ih (by simpa [initRegistry, get_cube] using h)

/-- Helper: a table present among the registered names is found by
`get_cube`. -/
theorem get_cube_initRegistry_isSome (tables : List (String × Option String))
    (t : String) (h : t ∈ tables.map Prod.fst) :
    (get_cube (initRegistry tables) t).isSome = true := by
  induction tables with
  | nil => simp at h
  | cons hd tl ih =>
    simp only [List.map_cons, List.mem_cons] at h
    by_cases hhd : hd.1 == t
    · simp [initRegistry, get_cube, List.find?, hhd]
    · rcases h with h | h
      · exact absurd (by simp [h]) hhd
      · simp only [initRegistry, List.map_cons, get_cube, List.find?, hhd]
        simpa [initRegistry, get_cube] using ih h

/-- C10: `CubeRegistry.initialize` classifies every registered cube as
snapshot (kind `"df"`): the classification condition
`table_name.endswith("_df") or "user_profile_360" or "blacklist" in
table_name` is always truthy (a non-empty string literal used as an
operand of `or`), so the `"_di"` incremental branch is unreachable,
and `is_snapshot` returns `True` for every registered table. -/
theorem C10_registry_always_snapshot :
    (∀ table_name : String, inferKind table_name = "df") ∧
    (∀ (tables : List (String × Option String)) (t : String),
      t ∈ tables.map Prod.fst → is_snapshot (initRegistry tables) t = true) := by
  have hkind : ∀ table_name : String, inferKind table_name = "df" := by
    intro n
    simp [inferKind, kindCondition_true]
  refine ⟨hkind, fun tables t ht => ?_⟩
  have hsome := get_cube_initRegistry_isSome tables t ht
  rcases hcube : get_cube (initRegistry tables) t with _ | cube
  · rw [hcube] at hsome; simp at hsome
  · have := get_cube_initRegistry_kind tables t cube hcube
    simp [is_snapshot, hcube, this, hkind]

/-- Witness for C10 at the concrete registry built from the cube
modules under `app/cubes/`. -/
theorem C10_registry_always_snapshot_witness :
    inferKind "dws_all_trades_di" = "df" ∧
    is_snapshot theRegistry "dws_all_trades_di" = true := by
  refine ⟨C10_registry_always_snapshot.1 "dws_all_trades_di",
    C10_registry_always_snapshot.2 knownCubeTables "dws_all_trades_di" ?_⟩
  simp [knownCubeTables]

end CubeRegistry

/-! ### Guard helper lemmas -/

namespace SQLGuard

/-- RULE 2 changes only the limit argument of the statement. -/
theorem applyLimitPolicy_eq (s : ParsedStmt) :
    applyLimitPolicy s = { s with limitArg := limitAfterPolicy s } := rfl

/-- A successful `validate_and_fix` run returns the head statement with
RULE 2 applied, and certifies the three checks. -/
theorem validate_and_fix_ok (reg : List (String × CubeRegistry.CubeMetadata))
    (s : ParsedStmt) (rest : List ParsedStmt) (out : ParsedStmt)
    (h : validate_and_fix reg (s :: rest) = .ok out) :
    out = applyLimitPolicy s ∧
    (s.kind = .select ∨ s.kind = .union ∨ s.kind = .withCte) ∧
    s.walkHasCommand = false ∧
    ruleThree reg ((s.whereSql.map pyLower).getD "") s.walkTables = none := by
  unfold validate_and_fix at h
  by_cases hk : (s.kind == .select || s.kind == .union || s.kind == .withCte)
  · by_cases hc : s.walkHasCommand
    · simp [hk, hc] at h
    · simp only [hk, hc, Bool.not_true, Bool.false_eq_true, if_false,
        Bool.not_false, if_true] at h
      rcases hr : ruleThree reg (((applyLimitPolicy s).whereSql.map pyLower).getD "")
          (applyLimitPolicy s).walkTables with _ | e
      · rw [hr] at h
        simp only [Except.ok.injEq] at h
        refine ⟨h.symm, ?_, by simpa using hc, by simpa [applyLimitPolicy_eq] using hr⟩
        exact or_assoc.mp (by simpa [Bool.or_eq_true, beq_iff_eq] using hk)
      · rw [hr] at h
        simp at h
  · simp [hk] at h

/-- A statement in the referenced-table list whose per-table check
raises makes RULE 3 raise. -/
theorem ruleThree_isSome_of_violation
    (reg : List (String × CubeRegistry.CubeMetadata)) (w : String)
    (tables : List String) (t : String) (ht : t ∈ tables)
    (hv : tableViolation reg w t ≠ none) :
    ∃ e, ruleThree reg w tables = some e := by
  induction tables with
  | nil => simp at ht
  | cons hd tl ih =>
    unfold ruleThree
    rcases hhd : tableViolation reg w hd with _ | e
    · rcases List.mem_cons.1 ht with h | h
      · exact absurd (h ▸ hhd) hv
      · simpa [hhd] using ih h
    · exact ⟨e, by simp [hhd]⟩

/-- RULE 3 passes when every referenced table passes its per-table
check. -/
theorem ruleThree_none_of_all_pass
    (reg : List (String × CubeRegistry.CubeMetadata)) (w : String)
    (tables : List String)
    (h : ∀ t ∈ tables, tableViolation reg w t = none) :
    ruleThree reg w tables = none := by
  induction tables with
  | nil => rfl
  | cons hd tl ih =>
    unfold ruleThree
    rw [h hd (List.mem_cons_self hd tl)]
    exact ih fun t ht => h t (List.mem_cons_of_mem hd ht)

/-- An error is raised whenever the head statement fails RULE 1
(whatever the registry and the rest of the input). -/
theorem validate_and_fix_rule1_error
    (reg : List (String × CubeRegistry.CubeMetadata))
    (s : ParsedStmt) (rest : List ParsedStmt)
    (h : ¬(s.kind = .select ∨ s.kind = .union ∨ s.kind = .withCte) ∨
      s.walkHasCommand = true) :
    ∃ e, validate_and_fix reg (s :: rest) = .error e := by
  unfold validate_and_fix
  by_cases hk : (s.kind == .select || s.kind == .union || s.kind == .withCte)
  · rcases h with h | h
    · exact absurd (or_assoc.mp (by simpa [Bool.or_eq_true, beq_iff_eq] using hk)) h
    · simp [hk, h]
  · simp [hk]

end SQLGuard

/-! ### C1 — rejection of administrative/DDL/DML commands -/

namespace SQLGuard

/-- Counterexample to C1.  The SQL text `SELECT 1; DROP TABLE users;`
denotes the two-statement list `[selectOneStmt, dropTableUsersStmt]`;
`sqlglot.parse_one` returns only the first statement, so
`validate_and_fix` never sees the `DROP` and, instead of raising a
policy violation, accepts the input and returns the sanitized first
statement `SELECT 1 LIMIT 100`. -/
theorem C1_counterexample :
    validate_and_fix CubeRegistry.theRegistry [selectOneStmt, dropTableUsersStmt]
      = .ok { selectOneStmt with limitArg := some 100 } := by
  rfl

/-- C1, amended: `validate_and_fix` raises a policy violation for
every input whose *first* statement is an administrative/DDL/DML
command — anything whose root is not a `Select`/`Union`/`With`
(e.g. a bare `DROP TABLE users`) — or whose first statement contains a
`Command` node anywhere in its tree.  Statements after the first are
discarded by `sqlglot.parse_one` before validation, so a trailing
command (as in `SELECT 1; DROP TABLE users;`) is not rejected; it is
dropped from the returned SQL. -/
theorem C1_amended_first_statement_commands_rejected
    (reg : List (String × CubeRegistry.CubeMetadata))
    (s : ParsedStmt) (rest : List ParsedStmt)
    (h : ¬(s.kind = .select ∨ s.kind = .union ∨ s.kind = .withCte) ∨
      s.walkHasCommand = true) :
    ∃ e, validate_and_fix reg (s :: rest) = .error e :=
  validate_and_fix_rule1_error reg s rest h

/-- Witness for the amended C1 at `DROP TABLE users` as the (single)
first statement. -/
theorem C1_amended_witness :
    ∃ e, validate_and_fix CubeRegistry.theRegistry [dropTableUsersStmt] = .error e :=
  C1_amended_first_statement_commands_rejected CubeRegistry.theRegistry
    dropTableUsersStmt [] (Or.inl (by decide))

end SQLGuard

/-! ### C2 — snapshot partition rule -/

namespace SQLGuard

/-- Helper: with the single-value where-clause `WHERE ds = 'a'`
(lower-cased by the guard), no table can trigger RULE 3, whatever the
registry: the snapshot check needs the substring `between`, which is
absent, and the incremental check needs the substring `ds`, which is
present. -/
theorem tableViolation_ds_eq_none
    (reg : List (String × CubeRegistry.CubeMetadata)) (t : String) :
    tableViolation reg "where ds = 'a'" t = none := by
  unfold tableViolation
  rcases CubeRegistry.get_cube reg t with _ | cube
  · rfl
  · by_cases hdf : cube.kind == "df"
    · simp [hdf, (by decide : pyIn "between" "where ds = 'a'" = false)]
    · by_cases hdi : cube.kind == "di"
      · simp [hdf, hdi, (by decide : pyIn "ds" "where ds = 'a'" = true)]
      · simp [hdf, hdi]

/-- C2: for every query referencing a table classified snapshot
(`"df"`), `validate_and_fix` raises a policy violation when the
where-clause is the partition-range predicate
`ds BETWEEN 'a' AND 'b'` (rendered by sqlglot as
`WHERE ds BETWEEN 'a' AND 'b'`), and accepts the query — returning it
with at most its limit adjusted — when the same filter is written as
the single-value predicate `ds = 'a'` (rendered
`WHERE ds = 'a'`). -/
theorem C2_snapshot_partition_rule
    (reg : List (String × CubeRegistry.CubeMetadata)) (t : String)
    (cube : CubeRegistry.CubeMetadata) (s₁ s₂ : ParsedStmt)
    (r₁ r₂ : List ParsedStmt)
    (hcube : CubeRegistry.get_cube reg t = some cube)
    (hdf : cube.kind = "df")
    (ht : t ∈ s₁.walkTables)
    (hw₁ : s₁.whereSql = some "WHERE ds BETWEEN 'a' AND 'b'")
    (hk₂ : s₂.kind = .select)
    (hc₂ : s₂.walkHasCommand = false)
    (hw₂ : s₂.whereSql = some "WHERE ds = 'a'") :
    (∃ e, validate_and_fix reg (s₁ :: r₁) = .error e) ∧
    validate_and_fix reg (s₂ :: r₂) = .ok { s₂ with limitArg := limitAfterPolicy s₂ } := by
  constructor
  · -- the BETWEEN query: either RULE 1 already raises, or RULE 3
    -- raises at table `t`
    by_cases h1 : ¬(s₁.kind = .select ∨ s₁.kind = .union ∨ s₁.kind = .withCte) ∨
        s₁.walkHasCommand = true
    · exact validate_and_fix_rule1_error reg s₁ r₁ h1
    · push_neg at h1
      obtain ⟨hk₁, hc₁⟩ := h1
      have hkb : (s₁.kind == .select || s₁.kind == .union || s₁.kind == .withCte) = true := by
        rcases hk₁ with h | h | h <;> simp [h]
      have hcb : s₁.walkHasCommand = false := by simpa using hc₁
      have hviol : tableViolation reg
          ((s₁.whereSql.map pyLower).getD "") t ≠ none := by
        rw [hw₁]
        unfold tableViolation
        rw [hcube]
        simp [hdf, (by decide : pyIn "between" (pyLower "WHERE ds BETWEEN 'a' AND 'b'") = true),
          (by decide : pyIn "ds " (pyLower "WHERE ds BETWEEN 'a' AND 'b'") = true)]
      obtain ⟨e, he⟩ := ruleThree_isSome_of_violation reg
        ((s₁.whereSql.map pyLower).getD "") s₁.walkTables t ht hviol
      refine ⟨e, ?_⟩
      unfold validate_and_fix
      simp only [hkb, hcb, Bool.not_true, Bool.false_eq_true, if_false,
        Bool.not_false, if_true]
      rw [show (((applyLimitPolicy s₁).whereSql.map pyLower).getD "") =
        ((s₁.whereSql.map pyLower).getD "") from rfl,
        show (applyLimitPolicy s₁).walkTables = s₁.walkTables from rfl, he]
  · -- the single-value query passes RULE 3 for every table
    have hkb : (s₂.kind == .select || s₂.kind == .union || s₂.kind == .withCte) = true := by
      simp [hk₂]
    have hnone : ruleThree reg ((s₂.whereSql.map pyLower).getD "") s₂.walkTables = none := by
      rw [hw₂]
      refine ruleThree_none_of_all_pass reg _ s₂.walkTables fun t' _ => ?_
      have h : (Option.map pyLower (some "WHERE ds = 'a'")).getD "" = "where ds = 'a'" := by
        decide
      rw [h]
      exact tableViolation_ds_eq_none reg t'
    unfold validate_and_fix
    simp only [hkb, hc₂, Bool.not_true, Bool.false_eq_true, if_false,
      Bool.not_false, if_true]
    rw [show (((applyLimitPolicy s₂).whereSql.map pyLower).getD "") =
      ((s₂.whereSql.map pyLower).getD "") from rfl,
      show (applyLimitPolicy s₂).walkTables = s₂.walkTables from rfl, hnone]
    simp [applyLimitPolicy, hc₂]

/-- Witness for C2 at the concrete snapshot table and queries. -/
theorem C2_snapshot_partition_rule_witness :
    (∃ e, validate_and_fix snapRegistry [c2BetweenStmt] = .error e) ∧
    validate_and_fix snapRegistry [c2EqStmt]
      = .ok { c2EqStmt with limitArg := limitAfterPolicy c2EqStmt } :=
  C2_snapshot_partition_rule snapRegistry "snap_table" _ c2BetweenStmt c2EqStmt [] []
    rfl rfl (by decide) rfl rfl rfl rfl

end SQLGuard

/-! ### C3 — incremental partition rule -/

namespace SQLGuard

/-- Counterexample to C3.  The query
`SELECT ... FROM events_di WHERE funds > 0` references a table
classified incremental and its where-clause contains no reference to
the partition column `ds`; the claim says `validate_and_fix` raises a
policy violation, but the incremental rule is the substring test
`"ds" not in where_sql`, the two letters `ds` occur inside the
identifier `funds`, and the query is accepted (with the default limit
injected). -/
theorem C3_counterexample :
    validate_and_fix incrRegistry [c3FundsStmt]
      = .ok { c3FundsStmt with limitArg := some 100 } := by
  rfl

/-- C3, amended: for every query referencing a table classified
incremental, `validate_and_fix` raises a policy violation when the
lower-cased where-clause text does not contain the two-letter
substring `ds` — in particular when there is no where-clause at all —
and accepts the query (returning it with at most its limit adjusted)
once a predicate such as `ds BETWEEN 'a' AND 'b'` is added, provided
no referenced table is classified snapshot (a snapshot table would
itself reject the `BETWEEN`).  The check is a substring test, not a
column-reference test: a where-clause such as `funds > 0` contains
`ds` inside another identifier and is accepted. -/
theorem C3_amended_incremental_partition_rule
    (reg : List (String × CubeRegistry.CubeMetadata)) (t : String)
    (cube : CubeRegistry.CubeMetadata) (s₁ s₂ : ParsedStmt)
    (r₁ r₂ : List ParsedStmt)
    (hcube : CubeRegistry.get_cube reg t = some cube)
    (hdi : cube.kind = "di")
    (ht : t ∈ s₁.walkTables)
    (hw₁ : pyIn "ds" ((s₁.whereSql.map pyLower).getD "") = false)
    (hk₂ : s₂.kind = .select)
    (hc₂ : s₂.walkHasCommand = false)
    (hw₂ : s₂.whereSql = some "WHERE ds BETWEEN 'a' AND 'b'")
    (hreg₂ : ∀ t' ∈ s₂.walkTables, ∀ c,
      CubeRegistry.get_cube reg t' = some c → c.kind ≠ "df") :
    (∃ e, validate_and_fix reg (s₁ :: r₁) = .error e) ∧
    validate_and_fix reg (s₂ :: r₂) = .ok { s₂ with limitArg := limitAfterPolicy s₂ } := by
  constructor
  · by_cases h1 : ¬(s₁.kind = .select ∨ s₁.kind = .union ∨ s₁.kind = .withCte) ∨
        s₁.walkHasCommand = true
    · exact validate_and_fix_rule1_error reg s₁ r₁ h1
    · push_neg at h1
      obtain ⟨hk₁, hc₁⟩ := h1
      have hkb : (s₁.kind == .select || s₁.kind == .union || s₁.kind == .withCte) = true := by
        rcases hk₁ with h | h | h <;> simp [h]
      have hcb : s₁.walkHasCommand = false := by simpa using hc₁
      have hviol : tableViolation reg
          ((s₁.whereSql.map pyLower).getD "") t ≠ none := by
        unfold tableViolation
        rw [hcube]
        have hndf : (cube.kind == "df") = false := by simp [hdi]
        simp [hndf, hdi, hw₁]
      obtain ⟨e, he⟩ := ruleThree_isSome_of_violation reg
        ((s₁.whereSql.map pyLower).getD "") s₁.walkTables t ht hviol
      refine ⟨e, ?_⟩
      unfold validate_and_fix
      simp only [hkb, hcb, Bool.not_true, Bool.false_eq_true, if_false,
        Bool.not_false, if_true]
      rw [show (((applyLimitPolicy s₁).whereSql.map pyLower).getD "") =
        ((s₁.whereSql.map pyLower).getD "") from rfl,
        show (applyLimitPolicy s₁).walkTables = s₁.walkTables from rfl, he]
  · have hkb : (s₂.kind == .select || s₂.kind == .union || s₂.kind == .withCte) = true := by
      simp [hk₂]
    have hnone : ruleThree reg ((s₂.whereSql.map pyLower).getD "") s₂.walkTables = none := by
      rw [hw₂]
      refine ruleThree_none_of_all_pass reg _ s₂.walkTables fun t' ht' => ?_
      have h : (Option.map pyLower (some "WHERE ds BETWEEN 'a' AND 'b'")).getD ""
          = "where ds between 'a' and 'b'" := by decide
      rw [h]
      unfold tableViolation
      rcases hc : CubeRegistry.get_cube reg t' with _ | c
      · rfl
      · have hndf : (c.kind == "df") = false := by
          simpa using hreg₂ t' ht' c hc
        by_cases hdi' : c.kind == "di"
        · simp [hndf, hdi',
            (by decide : pyIn "ds" "where ds between 'a' and 'b'" = true)]
        · simp [hndf, hdi']
    unfold validate_and_fix
    simp only [hkb, hc₂, Bool.not_true, Bool.false_eq_true, if_false,
      Bool.not_false, if_true]
    rw [show (((applyLimitPolicy s₂).whereSql.map pyLower).getD "") =
      ((s₂.whereSql.map pyLower).getD "") from rfl,
      show (applyLimitPolicy s₂).walkTables = s₂.walkTables from rfl, hnone]
    simp [applyLimitPolicy, hc₂]

/-- Witness for the amended C3 at the concrete incremental table, a
query with no where-clause, and the same query with
`ds BETWEEN 'a' AND 'b'` added. -/
theorem C3_amended_witness :
    (∃ e, validate_and_fix incrRegistry [c3NoWhereStmt] = .error e) ∧
    validate_and_fix incrRegistry [c3BetweenStmt]
      = .ok { c3BetweenStmt with limitArg := limitAfterPolicy c3BetweenStmt } :=
  C3_amended_incremental_partition_rule incrRegistry "events_di" _
    c3NoWhereStmt c3BetweenStmt [] [] rfl rfl (by decide) (by decide) rfl rfl rfl
    (fun t' ht' c hc => by
      have h1 : t' = "events_di" := by simpa [c3BetweenStmt] using ht'
      subst h1
      have h2 : some (CubeRegistry.CubeMetadata.mk "events_di" "di" (some "created_at"))
          = some c := by
        simpa [CubeRegistry.get_cube, incrRegistry, List.find?] using hc
      cases h2
      decide)

end SQLGuard

/-! ### C4 — smart limit enforcement -/

namespace SQLGuard

/-- C4: for every accepted query, RULE 2 behaves as claimed: a grouped
query that carries an explicit limit keeps it exactly when it has an
ORDER BY with a descending key (with ascending or no ordering the limit
is stripped), and a query with no aggregation and no limit gets the
default `LIMIT 100` injected. -/
theorem C4_smart_limit_enforcer
    (reg : List (String × CubeRegistry.CubeMetadata))
    (s : ParsedStmt) (rest : List ParsedStmt) (out : ParsedStmt)
    (hok : validate_and_fix reg (s :: rest) = .ok out) :
    (s.groupArg = true → s.limitArg.isSome = true →
      ((out.limitArg = s.limitArg ↔ s.orderDescFlags.any id = true) ∧
       (s.orderDescFlags.any id = false → out.limitArg = none))) ∧
    (s.walkHasAggFunc = false → s.walkHasGroupNode = false → s.limitArg = none →
      out.limitArg = some 100) := by
  obtain ⟨hout, -, -, -⟩ := validate_and_fix_ok reg s rest out hok
  subst hout
  constructor
  · intro hg hl
    by_cases hd : s.orderDescFlags.any id = true
    · have hkeep : (applyLimitPolicy s).limitArg = s.limitArg := by
        simp [applyLimitPolicy, limitAfterPolicy, hg, hl, hd]
      exact ⟨by simp [hkeep, hd], fun hfalse => by simp [hfalse] at hd⟩
    · have hd' : s.orderDescFlags.any id = false := by simpa using hd
      have hstrip : (applyLimitPolicy s).limitArg = none := by
        simp [applyLimitPolicy, limitAfterPolicy, hg, hl, hd']
      obtain ⟨x, hx⟩ := Option.isSome_iff_exists.mp hl
      refine ⟨?_, fun _ => hstrip⟩
      rw [hstrip, hx, hd']
      simp
  · intro ha hgn hl0
    simp [applyLimitPolicy, limitAfterPolicy, ha, hgn, hl0]

/-- Witness for C4 at the concrete grouped descending query, which
keeps its limit. -/
theorem C4_smart_limit_enforcer_witness :
    (c4TopNStmt.groupArg = true → c4TopNStmt.limitArg.isSome = true →
      ((c4TopNStmt.limitArg = c4TopNStmt.limitArg ↔
        c4TopNStmt.orderDescFlags.any id = true) ∧
       (c4TopNStmt.orderDescFlags.any id = false → c4TopNStmt.limitArg = none))) ∧
    (c4TopNStmt.walkHasAggFunc = false → c4TopNStmt.walkHasGroupNode = false →
      c4TopNStmt.limitArg = none → c4TopNStmt.limitArg = some 100) :=
  C4_smart_limit_enforcer [] c4TopNStmt [] c4TopNStmt rfl

end SQLGuard

/-! ### C5 — idempotence of validate_and_fix -/

namespace SQLGuard

/-- RULE 2 is idempotent on any statement satisfying the structural
well-formedness of sqlglot parses. -/
theorem applyLimitPolicy_idem (s : ParsedStmt) (hwf : s.wf) :
    applyLimitPolicy (applyLimitPolicy s) = applyLimitPolicy s := by
  unfold ParsedStmt.wf at hwf
  by_cases hg : s.groupArg
  · have hgn := hwf hg
    by_cases hl : s.limitArg.isSome
    · by_cases hd : s.orderDescFlags.any id
      · simp [applyLimitPolicy, limitAfterPolicy, hg, hl, hd]
      · simp [applyLimitPolicy, limitAfterPolicy, hg, hl, hd, hgn]
    · simp [applyLimitPolicy, limitAfterPolicy, hg, hl, hgn]
  · by_cases hl : s.limitArg.isSome
    · simp [applyLimitPolicy, limitAfterPolicy, hg, hl]
    · by_cases ha : (s.walkHasAggFunc || s.walkHasGroupNode) = true
      · simp [applyLimitPolicy, limitAfterPolicy, hg, hl, ha]
      · simp only [Bool.not_eq_true] at ha
        simp [applyLimitPolicy, limitAfterPolicy, hg, hl, ha]

/-- C5: `validate_and_fix` is idempotent — for every input it accepts,
running it again on its own output returns the output unchanged (no
further limit injected, nothing already correct removed).  The
hypothesis `ParsedStmt.wf` records the sqlglot structural fact that a
set top-level group argument is itself a `Group` node seen by the
walk. -/
theorem C5_validate_and_fix_idempotent
    (reg : List (String × CubeRegistry.CubeMetadata))
    (stmts : List ParsedStmt) (out : ParsedStmt)
    (hwf : ∀ s, stmts.head? = some s → s.wf)
    (hok : validate_and_fix reg stmts = .ok out) :
    validate_and_fix reg [out] = .ok out := by
  match stmts with
  | [] => simp [validate_and_fix] at hok
  | s :: rest =>
    obtain ⟨hout, hkind, hcmd, hrule⟩ := validate_and_fix_ok reg s rest out hok
    have hswf : s.wf := hwf s rfl
    subst hout
    have hkb : ((applyLimitPolicy s).kind == .select ||
        (applyLimitPolicy s).kind == .union ||
        (applyLimitPolicy s).kind == .withCte) = true := by
      rcases hkind with h | h | h <;>
        simp [show (applyLimitPolicy s).kind = s.kind from rfl, h]
    unfold validate_and_fix
    simp only [hkb, show (applyLimitPolicy s).walkHasCommand = s.walkHasCommand from rfl,
      hcmd, Bool.not_true, Bool.false_eq_true, if_false, Bool.not_false, if_true]
    rw [show ruleThree reg
        (((applyLimitPolicy (applyLimitPolicy s)).whereSql.map pyLower).getD "")
        (applyLimitPolicy (applyLimitPolicy s)).walkTables
      = ruleThree reg ((s.whereSql.map pyLower).getD "") s.walkTables from rfl, hrule]
    rw [applyLimitPolicy_idem s hswf]

/-- Witness for C5: re-validating the output of the first pass on the
concrete grouped ascending query is a no-op. -/
theorem C5_validate_and_fix_idempotent_witness :
    validate_and_fix [] [{ c5TrendStmt with limitArg := none }]
      = .ok { c5TrendStmt with limitArg := none } :=
  C5_validate_and_fix_idempotent [] [c5TrendStmt] { c5TrendStmt with limitArg := none }
    (fun s h => by cases h; decide) rfl

end SQLGuard

/-! ### C6 — partition resolver fallback and caching -/

namespace DateResolver

/-- Helper: a filtered-out key is never found. -/
theorem find?_filter_ne_none (l : List (String × String × Nat)) (key : String) :
    (l.filter fun p => p.1 != key).find? (fun p => p.1 == key) = none := by
  rw [List.find?_eq_none]
  intro x hx
  have hne := (List.mem_filter.mp hx).2
  simpa using hne

/-- Helper: when `get` misses, the store it returns holds no entry for
the key, so a later `get` at any time misses again without touching the
store. -/
theorem cacheGet_after_miss (store : InMemoryCache.Store) (key : String)
    (now now₂ : Nat)
    (h : (InMemoryCache.get store key now).1 = none) :
    InMemoryCache.get ((InMemoryCache.get store key now).2) key now₂
      = (none, (InMemoryCache.get store key now).2) := by
  unfold InMemoryCache.get at h ⊢
  rcases hf : store.find? (fun p => p.1 == key) with _ | p
  · rw [hf] at h ⊢
    simp only
    rw [hf]
  · rcases p with ⟨k, v, e⟩
    rw [hf] at h ⊢
    by_cases hexp : now > e
    · simp only [hexp, if_true]
      rw [find?_filter_ne_none]
    · simp [hexp] at h

/-- C6: on a cache miss, when the warehouse probe fails
`get_latest_ds` returns yesterday's real-clock date in `YYYYMMDD` form
and stores nothing, so a subsequent call consults the probe again; when
the probe succeeds the value is returned and cached with a one-hour
(3600-second) expiry, under which a call within the hour is served from
the cache. -/
theorem C6_resolver_fallback_not_cached
    (store : InMemoryCache.Store) (now : Nat) (clock : Date)
    (hmiss : (InMemoryCache.get store "latest_ds" now).1 = none) :
    -- (a) failed probe: yesterday fallback, cache untouched
    (get_latest_ds store now clock none).1 = fmtYYYYMMDD (prevDay clock) ∧
    (get_latest_ds store now clock none).2.1
      = (InMemoryCache.get store "latest_ds" now).2 ∧
    (get_latest_ds store now clock none).2.2 = .fallback ∧
    -- (b) a subsequent call on the resulting store consults the probe
    (∀ now₂ clock₂ ds₂, ds₂ ≠ "" →
      (get_latest_ds (get_latest_ds store now clock none).2.1 now₂ clock₂
        (some ds₂)).2.2 = .probeSuccess) ∧
    -- (c) successful probe: value cached for one hour
    (∀ ds, ds ≠ "" →
      get_latest_ds store now clock (some ds)
        = (ds, InMemoryCache.set (InMemoryCache.get store "latest_ds" now).2
            "latest_ds" ds 3600 now, .probeSuccess)) ∧
    (∀ ds now₂, ds ≠ "" → ¬(now₂ > now + 3600) →
      (InMemoryCache.get (get_latest_ds store now clock (some ds)).2.1
        "latest_ds" now₂).1 = some ds) := by
  have hpair : InMemoryCache.get store "latest_ds" now
      = (none, (InMemoryCache.get store "latest_ds" now).2) := by
    rcases hg : InMemoryCache.get store "latest_ds" now with ⟨v, st⟩
    rw [hg] at hmiss
    simp only at hmiss
    simp [hmiss]
  have hrun : ∀ probe, get_latest_ds store now clock probe
      = get_latest_ds.fallthrough ((InMemoryCache.get store "latest_ds" now).2)
          now clock probe := by
    intro probe
    unfold get_latest_ds
    rw [hpair]
  refine ⟨?_, ?_, ?_, ?_, ?_, ?_⟩
  · rw [hrun]; rfl
  · rw [hrun]; rfl
  · rw [hrun]; rfl
  · intro now₂ clock₂ ds₂ hds
    have hds' : ds₂.isEmpty = false := by
      simpa [Bool.eq_false_iff, String.isEmpty_iff] using hds
    rw [hrun]
    have hst : (get_latest_ds.fallthrough ((InMemoryCache.get store "latest_ds" now).2)
        now clock none).2.1 = (InMemoryCache.get store "latest_ds" now).2 := rfl
    rw [hst]
    unfold get_latest_ds
    rw [cacheGet_after_miss store "latest_ds" now now₂ hmiss]
    unfold get_latest_ds.fallthrough
    simp [hds']
  · intro ds hds
    have hds' : ds.isEmpty = false := by
      simpa [Bool.eq_false_iff, String.isEmpty_iff] using hds
    rw [hrun]
    unfold get_latest_ds.fallthrough
    simp [hds']
  · intro ds now₂ hds hfresh
    have hds' : ds.isEmpty = false := by
      simpa [Bool.eq_false_iff, String.isEmpty_iff] using hds
    rw [hrun]
    unfold get_latest_ds.fallthrough
    simp only [hds', Bool.not_false, if_true]
    unfold InMemoryCache.get InMemoryCache.set
    simp [List.find?, hfresh]

end DateResolver

/-- Witness for C6 on the empty store with the real-clock date
2026-02-10: the fallback is `"20260209"` and nothing is cached. -/
theorem C6_resolver_fallback_not_cached_witness :
    (DateResolver.get_latest_ds [] 1000 ⟨2026, 2, 10⟩ none).1 = "20260209" ∧
    (DateResolver.get_latest_ds [] 1000 ⟨2026, 2, 10⟩ none).2.1
      = (InMemoryCache.get [] "latest_ds" 1000).2 := by
  have h := DateResolver.C6_resolver_fallback_not_cached [] 1000 ⟨2026, 2, 10⟩ (by rfl)
  exact ⟨h.1.trans (by decide), h.2.1⟩

/-! ### C7 — bounded self-correction loop -/

namespace Orchestrator

/-- C7: with a generation port whose every attempt produces
syntactically valid SQL that fails at execution (a retriable runtime
failure on every iteration), the reasoning loop performs exactly
`1 + max_retries = 3` generation attempts and then returns the
terminal `error` response; the loop never runs unboundedly (its
iteration budget is `max_retries - attempts + 1` by construction). -/
theorem C7_retry_bound (outcome : Nat → AttemptOutcome)
    (h : ∀ n, ∃ m, outcome n = .runtimeFail m) :
    ∃ e, reasoningLoop outcome = (.error none (some e), max_retries + 1) := by
  obtain ⟨m0, h0⟩ := h 0
  obtain ⟨m1, h1⟩ := h 1
  obtain ⟨m2, h2⟩ := h 2
  exact ⟨m2, by simp [reasoningLoop, loopIter, max_retries, h0, h1, h2]⟩

/-- Witness for C7 with every attempt failing at execution. -/
theorem C7_retry_bound_witness :
    ∃ e, reasoningLoop (fun _ => .runtimeFail "relation missing")
      = (.error none (some e), max_retries + 1) :=
  C7_retry_bound (fun _ => .runtimeFail "relation missing") (fun _ => ⟨_, rfl⟩)

end Orchestrator

/-! ### C8 — guard violations are terminal -/

namespace Orchestrator

/-- Helper: if the iterations before the `k`-th are retriable runtime
failures and the `k`-th raises a guard policy violation, the loop
returns the `Security Block` error right there, after exactly `k + 1`
generation attempts in total. -/
theorem loopIter_policy_violation (outcome : Nat → AttemptOutcome)
    (pe : SQLGuard.PolicyError) :
    ∀ (k fuel attempts gens : Nat) (le : Option String), k < fuel →
      (∀ j, j < k → ∃ m, outcome (attempts + j) = .runtimeFail m) →
      outcome (attempts + k) = .policyViolation pe →
      loopIter outcome fuel attempts gens le
        = (.error (some pe) none, gens + (k + 1)) := by
  intro k
  induction k with
  | zero =>
    intro fuel attempts gens le hlt _ hpv
    match fuel, hlt with
    | fuel + 1, _ =>
      simp only [loopIter]
      rw [show attempts + 0 = attempts from rfl] at hpv
      rw [hpv]
  | succ k ih =>
    intro fuel attempts gens le hlt hprev hpv
    match fuel, hlt with
    | fuel + 1, hlt =>
      obtain ⟨m, hm⟩ := hprev 0 (Nat.succ_pos k)
      rw [show attempts + 0 = attempts from rfl] at hm
      simp only [loopIter]
      rw [hm]
      have hres := ih fuel (attempts + 1) (gens + 1) (some m)
        (Nat.lt_of_succ_lt_succ hlt)
        (fun j hj => by
          have := hprev (j + 1) (Nat.succ_lt_succ hj)
          rwa [show attempts + (j + 1) = attempts + 1 + j by omega] at this)
        (by rwa [show attempts + 1 + k = attempts + (k + 1) by omega])
      show loopIter outcome fuel (attempts + 1) (gens + 1) (some m)
        = (PipelineResponse.error (some pe) none, gens + (k + 1 + 1))
      rw [hres, show gens + 1 + (k + 1) = gens + (k + 1 + 1) by omega]

/-- C8: if the guard raises a policy violation at the `k`-th attempt
(after `k` retriable failures, `k ≤ max_retries`), the pipeline loop
immediately returns the `Security Block` error-typed response with
exactly `k + 1` generation attempts — no further generation follows,
and the run's response is never of type `success`. -/
theorem C8_policy_violation_terminal (outcome : Nat → AttemptOutcome)
    (pe : SQLGuard.PolicyError) (k : Nat)
    (hk : k ≤ max_retries)
    (hprev : ∀ j, j < k → ∃ m, outcome j = .runtimeFail m)
    (hpv : outcome k = .policyViolation pe) :
    reasoningLoop outcome = (.error (some pe) none, k + 1) := by
  have h := loopIter_policy_violation outcome pe k (max_retries + 1) 0 0 none
    (Nat.lt_succ_of_le hk)
    (fun j hj => by simpa using hprev j hj)
    (by simpa using hpv)
  simpa [reasoningLoop] using h

/-- Witness for C8 with the guard rejecting the very first generated
query. -/
theorem C8_policy_violation_terminal_witness :
    reasoningLoop (fun _ => .policyViolation .notSelect)
      = (.error (some .notSelect) none, 1) :=
  C8_policy_violation_terminal (fun _ => .policyViolation .notSelect)
    .notSelect 0 (Nat.zero_le _) (fun j hj => absurd hj (Nat.not_lt_zero j)) rfl

end Orchestrator

/-! ### C9 — deterministic two-column chart -/

namespace VisualizationAgent

/-- `cellLe` is total. -/
theorem cellLe_total (a b : Cell) : cellLe a b = true ∨ cellLe b a = true := by
  cases a <;> cases b <;> simp [cellLe, cellRank] <;>
    first
      | exact Nat.le_total _ _
      | exact Int.le_total _ _
      | exact le_total _ _

/-- `cellLe` is transitive. -/
theorem cellLe_trans (a b c : Cell) (hab : cellLe a b = true)
    (hbc : cellLe b c = true) : cellLe a c = true := by
  cases a <;> cases b <;> cases c <;> simp_all [cellLe, cellRank] <;>
    first
      | omega
      | exact le_trans hab hbc

/-- Membership through insertion. -/
theorem mem_insertRowByX (r x : Cell × Cell) (l : List (Cell × Cell)) :
    x ∈ insertRowByX r l ↔ x = r ∨ x ∈ l := by
  induction l with
  | nil => simp [insertRowByX]
  | cons s t ih =>
    unfold insertRowByX
    by_cases h : cellLe r.1 s.1 = true
    · simp [h]
    · simp [h, ih]
      tauto

/-- Insertion permutes. -/
theorem insertRowByX_perm (r : Cell × Cell) (l : List (Cell × Cell)) :
    List.Perm (insertRowByX r l) (r :: l) := by
  induction l with
  | nil => exact List.Perm.refl _
  | cons s t ih =>
    unfold insertRowByX
    by_cases h : cellLe r.1 s.1 = true
    · rw [if_pos h]
    · rw [if_neg h]
      exact List.Perm.trans (List.Perm.cons s ih) (List.Perm.swap r s t)

/-- The sort permutes (model of `df.sort_values(by=x)` reordering the
rows). -/
theorem sortRowsByX_perm (l : List (Cell × Cell)) :
    List.Perm (sortRowsByX l) l := by
  induction l with
  | nil => exact List.Perm.refl _
  | cons r t ih =>
    exact List.Perm.trans (insertRowByX_perm r (sortRowsByX t)) (List.Perm.cons r ih)

/-- Insertion preserves sortedness. -/
theorem pairwise_insertRowByX (r : Cell × Cell) (l : List (Cell × Cell))
    (h : l.Pairwise RowLe) : (insertRowByX r l).Pairwise RowLe := by
  induction l with
  | nil => simp [insertRowByX]
  | cons s t ih =>
    rcases List.pairwise_cons.mp h with ⟨hs, ht⟩
    unfold insertRowByX
    by_cases hc : cellLe r.1 s.1 = true
    · rw [if_pos hc]
      refine List.Pairwise.cons ?_ h
      intro x hx
      rcases List.mem_cons.mp hx with rfl | hx
      · exact hc
      · exact cellLe_trans _ _ _ hc (hs x hx)
    · rw [if_neg hc]
      refine List.Pairwise.cons ?_ (ih ht)
      intro x hx
      rcases (mem_insertRowByX r x t).mp hx with heq | hx
      · rw [heq]
        rcases cellLe_total r.1 s.1 with h1 | h1
        · exact absurd h1 hc
        · exact h1
      · exact hs x hx

/-- The sorted rows are pairwise ordered by the x component. -/
theorem sortRowsByX_pairwise (l : List (Cell × Cell)) :
    (sortRowsByX l).Pairwise RowLe := by
  induction l with
  | nil => exact List.Pairwise.nil
  | cons r t ih => exact pairwise_insertRowByX r (sortRowsByX t) ih

/-- A nonempty all-date column has datetime dtype. -/
theorem colIsDatetime_of_dates (vals : List Cell) (hne : vals ≠ [])
    (h : ∀ c ∈ vals, ∃ n, c = Cell.date n) : colIsDatetime vals = true := by
  unfold colIsDatetime
  rcases vals with _ | ⟨c, t⟩
  · exact absurd rfl hne
  · obtain ⟨n, hn⟩ := h c (List.mem_cons_self c t)
    rw [Bool.and_eq_true]
    constructor
    · exact List.any_eq_true.mpr ⟨c, List.mem_cons_self c t, by simp [hn, Cell.isDate]⟩
    · refine List.all_eq_true.mpr fun x hx => ?_
      obtain ⟨m, hm⟩ := h x hx
      simp [hm, Cell.isDate]

end VisualizationAgent

namespace VisualizationAgent

/-- C9: given a two-column result with one date-like column (named as a
date and holding `YYYYMMDD` values) and one numeric column, in the
trend/aggregation case `determine_format` returns a chart specification
deterministically — without any generation-port call — and the chart's
x-values are exactly the result's dates sorted ascending. -/
theorem C9_deterministic_two_column_chart
    (df : DFrame2) (sql user_question intent_type : String)
    (hxname : dateLikeNames.contains (pyLower df.col1) = true)
    (hyname : cleanNameIsDate df.col2 = false)
    (hrows : 1 < df.rows.length)
    (hxv : ∀ r ∈ df.rows, ∃ s n, r.1 = Cell.str s ∧ parseYmd s = some n)
    (hyv : ∀ r ∈ df.rows, ∃ v : Int, r.2 = Cell.num v)
    (hagg : intent_type = "trend" ∨ hasAggregates sql = true)
    (hfun : intent_type ≠ "funnel")
    (hfq : pyIn "funnel" (pyLower user_question) = false) :
    ∃ tr : ChartTrace,
      determine_format df sql user_question intent_type
        = { visual_type := "plotly", trace := some tr, llmCalled := false } ∧
      ∃ xs ds : List Nat,
        (cleanData df).rows.map (fun r => r.1) = xs.map Cell.date ∧
        List.Perm ds xs ∧
        List.Sorted (· ≤ ·) ds ∧
        tr.x = ds.map (fun n => Cell.str (fmtCellDash n)) := by
  -- the cleaned rows
  have hne : df.rows ≠ [] := by
    intro h; rw [h] at hrows; simp at hrows
  have hnee : df.rows.isEmpty = false := by
    cases h : df.rows with
    | nil => exact absurd h hne
    | cons a l => simp [h]
  have hnd1 : cleanNameIsDate df.col1 = true := by
    simp only [cleanNameIsDate, hxname, Bool.true_or]
  -- clean of the x column: the strict pass turns every cell into a date
  have hstrict : ∀ r ∈ df.rows, ∃ n, strictYmdCell r.1 = Cell.date n := by
    intro r hr
    obtain ⟨s, n, hs, hn⟩ := hxv r hr
    exact ⟨n, by rw [hs]; simp [strictYmdCell, hn]⟩
  have hc1 : cleanCol df.col1 (df.rows.map (fun r => r.1))
      = (df.rows.map (fun r => r.1)).map strictYmdCell := by
    unfold cleanCol
    rw [if_pos hnd1]
    rw [if_neg ?_]
    intro hall
    obtain ⟨r0, hr0⟩ := List.exists_mem_of_ne_nil df.rows hne
    obtain ⟨n0, hn0⟩ := hstrict r0 hr0
    have := List.all_eq_true.mp hall (strictYmdCell r0.1)
      (List.mem_map.mpr ⟨r0.1, List.mem_map.mpr ⟨r0, hr0, rfl⟩, rfl⟩)
    rw [hn0] at this
    simp at this
  have hnum : ∀ r ∈ df.rows, toNumericCell r.2 = r.2 := by
    intro r hr
    obtain ⟨v, hv⟩ := hyv r hr
    rw [hv]; rfl
  have hfilter : ((df.rows.map (fun r => r.2)).map toNumericCell).filter
      (· != Cell.null) = (df.rows.map (fun r => r.2)).map toNumericCell := by
    refine List.filter_eq_self.mpr fun c hc => ?_
    rw [List.map_map] at hc
    obtain ⟨r, hr, hrc⟩ := List.mem_map.mp hc
    obtain ⟨v, hv⟩ := hyv r hr
    rw [← hrc]
    simp [Function.comp, hv, toNumericCell]
  have hc2 : cleanCol df.col2 (df.rows.map (fun r => r.2))
      = (df.rows.map (fun r => r.2)).map toNumericCell := by
    simp only [cleanCol]
    rw [if_neg (by simp [hyname])]
    rw [hfilter, List.length_map]
    rw [if_pos ?_]
    rw [Bool.and_eq_true]
    constructor
    · simp only [decide_eq_true_eq, List.length_map]
      omega
    · simp only [decide_eq_true_eq, List.length_map]
      omega
  have hclrows : (cleanData df).rows
      = df.rows.map (fun r => (strictYmdCell r.1, toNumericCell r.2)) := by
    unfold cleanData
    simp only
    rw [hc1, hc2, List.map_map, List.map_map, List.zip_map']
    rfl
  -- shapes of the cleaned rows
  have hshape : ∀ q ∈ (cleanData df).rows, ∃ n v, q = (Cell.date n, Cell.num v) := by
    rw [hclrows]
    intro q hq
    obtain ⟨r, hr, hrq⟩ := List.mem_map.mp hq
    obtain ⟨n, hn⟩ := hstrict r hr
    obtain ⟨v, hv⟩ := hyv r hr
    exact ⟨n, v, by rw [← hrq, hn, hnum r hr, hv]⟩
  have hcllen : (cleanData df).rows.length = df.rows.length := by
    rw [hclrows, List.length_map]
  -- reduction of determine_format to the deterministic branch
  have hk1 : ((cleanData df).rows.length == 1) = false := by
    rw [hcllen]
    simp only [beq_eq_false_iff_ne, ne_eq]
    omega
  have hforce : forceXY (cleanData df) = some true := by
    unfold forceXY isXCandidate
    have : (cleanData df).col1 = df.col1 := rfl
    rw [this, hxname]
    simp
  have hfb : (intent_type == "funnel") = false := by
    simpa [beq_eq_false_iff_ne] using hfun
  have htrend : ((intent_type == "trend" || hasAggregates sql)
      && decide ((cleanData df).rows.length > 1)) = true := by
    rw [Bool.and_eq_true]
    constructor
    · rcases hagg with h | h
      · simp [h]
      · simp [h]
    · rw [hcllen]
      simpa using hrows
  have hred : determine_format df sql user_question intent_type
      = { visual_type := "plotly",
          trace := some (deterministicTrace (cleanData df).rows),
          llmCalled := false } := by
    unfold determine_format
    rw [if_neg (by simp [hnee])]
    simp only [hk1, Bool.false_and, Bool.false_eq_true, if_false,
      hfb, hfq, Bool.or_self, hforce, htrend, if_true]
  -- the x series of the deterministic trace
  have hsperm : List.Perm (sortRowsByX (cleanData df).rows) (cleanData df).rows :=
    sortRowsByX_perm _
  have hsshape : ∀ q ∈ sortRowsByX (cleanData df).rows,
      ∃ n v, q = (Cell.date n, Cell.num v) :=
    fun q hq => hshape q (hsperm.mem_iff.mp hq)
  have hsne : sortRowsByX (cleanData df).rows ≠ [] := by
    intro h
    have := hsperm.length_eq
    rw [h, hcllen] at this
    simp at this
    omega
  have hxdt : colIsDatetime
      (((sortRowsByX (cleanData df).rows).map
        (fun r => (r.1, toNumericCell r.2))).map (fun r => r.1)) = true := by
    rw [List.map_map]
    refine colIsDatetime_of_dates _ ?_ ?_
    · simpa using hsne
    · intro c hc
      obtain ⟨q, hq, hqc⟩ := List.mem_map.mp hc
      obtain ⟨n, v, hnv⟩ := hsshape q hq
      exact ⟨n, by rw [← hqc, hnv]; rfl⟩
  refine ⟨deterministicTrace (cleanData df).rows, hred, ?_⟩
  refine ⟨(cleanData df).rows.map (fun q => dateVal q.1),
    (sortRowsByX (cleanData df).rows).map (fun q => dateVal q.1), ?_, ?_, ?_, ?_⟩
  · -- the cleaned x column is the date list
    rw [List.map_map]
    refine List.map_congr_left fun q hq => ?_
    obtain ⟨n, v, hnv⟩ := hshape q hq
    rw [hnv]
    rfl
  · exact List.Perm.map _ hsperm
  · -- sortedness of the extracted dates
    have hp : (sortRowsByX (cleanData df).rows).Pairwise
        (fun a b => dateVal a.1 ≤ dateVal b.1) := by
      refine List.Pairwise.imp_of_mem ?_ (sortRowsByX_pairwise (cleanData df).rows)
      intro a b ha hb hab
      obtain ⟨na, va, hav⟩ := hsshape a ha
      obtain ⟨nb, vb, hbv⟩ := hsshape b hb
      rw [hav, hbv] at hab
      have hle : na ≤ nb := by simpa [RowLe, cellLe] using hab
      rw [hav, hbv]
      simpa [dateVal] using hle
    exact List.pairwise_map.mpr hp
  · -- the x data is the formatted sorted dates
    unfold deterministicTrace
    simp only [hxdt, if_true]
    rw [List.map_map, List.map_map]
    refine List.map_congr_left fun q hq => ?_
    obtain ⟨n, v, hnv⟩ := hsshape q hq
    rw [hnv]
    rfl

end VisualizationAgent

namespace VisualizationAgent

/-- Witness for C9 at the concrete frame and an aggregating query. -/
theorem C9_deterministic_two_column_chart_witness :
    ∃ tr : ChartTrace,
      determine_format c9Frame "SELECT ds, SUM(amount) FROM t GROUP BY ds"
          "show daily volume" "data_query"
        = { visual_type := "plotly", trace := some tr, llmCalled := false } ∧
      ∃ xs ds : List Nat,
        (cleanData c9Frame).rows.map (fun r => r.1) = xs.map Cell.date ∧
        List.Perm ds xs ∧
        List.Sorted (· ≤ ·) ds ∧
        tr.x = ds.map (fun n => Cell.str (fmtCellDash n)) :=
  C9_deterministic_two_column_chart c9Frame
    "SELECT ds, SUM(amount) FROM t GROUP BY ds" "show daily volume" "data_query"
    (by decide) (by decide) (by decide)
    (by
      intro r hr
      rcases List.mem_cons.mp hr with h | hr2
      · exact ⟨"20260210", 20260210, by rw [h], by decide⟩
      · rcases List.mem_cons.mp hr2 with h | h3
        · exact ⟨"20260209", 20260209, by rw [h], by decide⟩
        · simp at h3)
    (by
      intro r hr
      rcases List.mem_cons.mp hr with h | hr2
      · exact ⟨5, by rw [h]⟩
      · rcases List.mem_cons.mp hr2 with h | h3
        · exact ⟨7, by rw [h]⟩
        · simp at h3)
    (Or.inr (by decide)) (by decide) (by decide)

end VisualizationAgent
